import Mathlib

/-!
Verification of the tracee stack allocator (`src/register/mem.rs` of
proot_rust): the `alloc_mem` method of the `PtraceMemoryAllocator` trait
implemented on `Registers`.

Machine integers are modelled as mathematical integers with explicit
reduction modulo `2 ^ 64` where the Rust code can wrap: `Word` (`usize` on
a 64-bit target) values are natural numbers kept below `2 ^ 64`, and
`isize` values are integers in `[-2 ^ 63, 2 ^ 63)`, with release-mode
two's-complement wrapping made explicit by `wrapI64`.
-/

namespace ProotRust

/-- `usize::MAX` (`std::usize::MAX`) on a 64-bit target. -/
def USIZE_MAX : Nat := 2 ^ 64 - 1

/-- Two's-complement wrapping of an integer into the `isize` (`i64`) range
`[-2 ^ 63, 2 ^ 63)`: the release-mode result of an `isize` operation. -/
def wrapI64 (x : Int) : Int := (x + 2 ^ 63) % 2 ^ 64 - 2 ^ 63

/-- The Rust cast `x as usize` of an `isize` value: bitwise reinterpretation,
i.e. the representative of `x` modulo `2 ^ 64`. -/
def toWord (x : Int) : Nat := (x % 2 ^ 64).toNat

/-- `x` lies in the `isize` (`i64`) range. -/
def inI64 (x : Int) : Prop := -(2 ^ 63) ≤ x ∧ x < 2 ^ 63

instance (x : Int) : Decidable (inI64 x) := by unfold inI64; infer_instance

/-- `RED_ZONE_SIZE` under `cfg(all(target_os = "linux", target_arch = "x86_64"))`. -/
def RED_ZONE_SIZE_x86_64_linux : Int := 128

/-- `RED_ZONE_SIZE` under `cfg(all(target_os = "linux", not(target_arch = "x86_64")))`. -/
def RED_ZONE_SIZE_other : Int := 0

/-- Modelled from the spec: the `Registers` type lives in the `register`
module, outside the source fragment; only `alloc_mem` and its tests are in
`src/register/mem.rs`.  Per the spec's data model it carries the working
`stack_pointer`, the immutable `original_stack_pointer` snapshot (read in the
source as `get_reg!(self.original_regs, StackPointer)`), and a process
identifier.  Both stack-pointer fields hold `Word` (`usize`) values. -/
structure Registers where
  pid : Nat
  stack_pointer : Nat
  original_stack_pointer : Nat
deriving Repr, DecidableEq

/-- Modelled from the spec: the error type (module `errors`, outside the
source fragment) offers a constructor for a "bad address" kind with an
attached message; `alloc_mem` uses `Error::bad_address(msg)`. -/
inductive Error where
  | bad_address (msg : String)
deriving Repr, DecidableEq

deriving instance DecidableEq for Except

/-- The `corrected_size` computed by `alloc_mem` (mem.rs lines 38-41):

```rust
let corrected_size = match self.stack_pointer == original_stack_pointer {
    false => size,
    true => size + RED_ZONE_SIZE,
};
```

The `true` branch's `isize` addition wraps in release mode, hence `wrapI64`.
The red-zone constant is a parameter `rz` (the platform-selected
`RED_ZONE_SIZE`). -/
def correctedSize (rz : Int) (r : Registers) (size : Int) : Int :=
  match r.stack_pointer == r.original_stack_pointer with
  | false => size
  | true => wrapI64 (size + rz)

/-- The under/overflow guard of `alloc_mem` (mem.rs lines 43-46):

```rust
if (corrected_size > 0 && self.stack_pointer <= corrected_size as Word) ||
    (corrected_size < 0 &&
         self.stack_pointer >= (USIZE_MAX as Word) - (-corrected_size as Word))
```

The negation `-corrected_size` is an `isize` operation and wraps in release
mode, hence `wrapI64`; `USIZE_MAX - _` is a `usize` subtraction that cannot
underflow because its left operand is the maximum, so `Nat` subtraction is
exact here. -/
def guardTriggers (rz : Int) (r : Registers) (size : Int) : Prop :=
  let corrected_size := correctedSize rz r size
  (corrected_size > 0 ∧ r.stack_pointer ≤ toWord corrected_size) ∨
  (corrected_size < 0 ∧
    r.stack_pointer ≥ USIZE_MAX - toWord (wrapI64 (-corrected_size)))

instance (rz : Int) (r : Registers) (size : Int) :
    Decidable (guardTriggers rz r size) := by
  unfold guardTriggers; infer_instance

/-- `alloc_mem` (mem.rs lines 32-62), in state-passing form: the Rust method
takes `&mut self` and returns `Result<Word>`; here it returns the post-state
of the register set together with the `Result`.  The early `return Err(...)`
leaves the registers untouched; on the success path the new stack pointer is

```rust
self.stack_pointer = match corrected_size > 0 {
    true => self.stack_pointer - (corrected_size as Word),
    false => self.stack_pointer + (-corrected_size as Word),
};
Ok(self.stack_pointer)
```

The `usize` subtraction in the `true` branch cannot underflow (the guard
rejected `stack_pointer <= corrected_size as Word`), so `Nat` subtraction is
exact there; the `usize` addition in the `false` branch wraps in release
mode, hence the explicit `% 2 ^ 64`. -/
def alloc_mem (rz : Int) (r : Registers) (size : Int) :
    Registers × Except Error Nat :=
  let corrected_size := correctedSize rz r size
  if guardTriggers rz r size then
    (r, Except.error (Error.bad_address
      "when allocating memory, under/overflow detected"))
  else
    let new_sp : Nat :=
      if corrected_size > 0 then r.stack_pointer - toWord corrected_size
      else (r.stack_pointer + toWord (wrapI64 (-corrected_size))) % 2 ^ 64
    ({ r with stack_pointer := new_sp }, Except.ok new_sp)

/-- No intermediate `isize` operation of `alloc_mem` leaves the signed
64-bit range: the red-zone addition `size + RED_ZONE_SIZE` stays in range
whenever it is performed (i.e. when `stack_pointer == original_stack_pointer`),
and the negation `-corrected_size` stays in range whenever it is performed
(the guard's right disjunct and the non-positive mutation branch, i.e. when
`corrected_size ≤ 0`; at `0` the negation is trivially in range). -/
def noIntermediateOverflow (rz : Int) (r : Registers) (size : Int) : Prop :=
  (r.stack_pointer = r.original_stack_pointer → inI64 (size + rz)) ∧
  (correctedSize rz r size < 0 → inI64 (-(correctedSize rz r size)))

instance (rz : Int) (r : Registers) (size : Int) :
    Decidable (noIntermediateOverflow rz r size) := by
  unfold noIntermediateOverflow; infer_instance

/-! ### Helper lemmas -/

lemma corrected_inI64 (rz : Int) (r : Registers) (size : Int) (h : inI64 size) :
    inI64 (correctedSize rz r size) := by
  unfold correctedSize
  split
  · exact h
  · unfold wrapI64 inI64 at *
    omega

lemma toWord_eq_toNat {c : Int} (h0 : 0 ≤ c) (h : c < 2 ^ 64) :
    toWord c = c.toNat := by
  unfold toWord
  omega

lemma toWord_wrap_nonpos {c : Int} (hlo : -(2 ^ 63) ≤ c) (hle : c ≤ 0) :
    (toWord (wrapI64 (-c)) : Int) = -c := by
  unfold toWord wrapI64
  omega

/-- On the success path (guard not triggered, `Word`-valued stack pointer,
`isize`-valued size), `alloc_mem` returns the registers with the stack
pointer replaced by `stack_pointer - corrected_size` computed in exact
(wraparound-free) integer arithmetic, together with `Ok` of that value. -/
lemma alloc_mem_eq_of_not_guard (rz : Int) (r : Registers) (size : Int)
    (hsp : r.stack_pointer ≤ USIZE_MAX) (hsize : inI64 size)
    (hg : ¬ guardTriggers rz r size) :
    alloc_mem rz r size =
      ({ r with stack_pointer :=
          ((r.stack_pointer : Int) - correctedSize rz r size).toNat },
       Except.ok ((r.stack_pointer : Int) - correctedSize rz r size).toNat) := by
  have hc : inI64 (correctedSize rz r size) := corrected_inI64 rz r size hsize
  have hg' := hg
  simp only [guardTriggers, USIZE_MAX] at hg'
  push_neg at hg'
  obtain ⟨hg1, hg2⟩ := hg'
  unfold inI64 at hc
  unfold USIZE_MAX at hsp
  have hnewsp :
      (if correctedSize rz r size > 0 then
        r.stack_pointer - toWord (correctedSize rz r size)
      else
        (r.stack_pointer + toWord (wrapI64 (-(correctedSize rz r size)))) % 2 ^ 64)
      = ((r.stack_pointer : Int) - correctedSize rz r size).toNat := by
    set c := correctedSize rz r size with hcdef
    by_cases hpos : c > 0
    · rw [if_pos hpos]
      have htw : toWord c = c.toNat := toWord_eq_toNat (le_of_lt hpos) (by omega)
      have hlt := hg1 hpos
      omega
    · rw [if_neg hpos]
      have htw : (toWord (wrapI64 (-c)) : Int) = -c :=
        toWord_wrap_nonpos (by omega) (by omega)
      by_cases hzero : c = 0
      · omega
      · have hb := hg2 (by omega)
        omega
  simp only [alloc_mem, if_neg hg]
  rw [hnewsp]

/-- The guard of `alloc_mem`, rewritten in exact integer arithmetic: for a
`Word`-valued stack pointer and an `isize`-valued size it triggers exactly
when `corrected_size > 0 ∧ stack_pointer ≤ corrected_size` or
`corrected_size < 0 ∧ stack_pointer ≥ USIZE_MAX - |corrected_size|`. -/
lemma guard_iff (rz : Int) (r : Registers) (size : Int)
    (hsp : r.stack_pointer ≤ USIZE_MAX) (hsize : inI64 size) :
    guardTriggers rz r size ↔
      (0 < correctedSize rz r size ∧
        (r.stack_pointer : Int) ≤ correctedSize rz r size) ∨
      (correctedSize rz r size < 0 ∧
        (USIZE_MAX : Int) - (-(correctedSize rz r size)) ≤ r.stack_pointer) := by
  have hc : inI64 (correctedSize rz r size) := corrected_inI64 rz r size hsize
  unfold inI64 at hc
  unfold USIZE_MAX at hsp
  simp only [guardTriggers, USIZE_MAX, ge_iff_le]
  set c := correctedSize rz r size with hcdef
  rcases lt_trichotomy c 0 with hneg | hzero | hpos
  · have htw : (toWord (wrapI64 (-c)) : Int) = -c :=
      toWord_wrap_nonpos (by omega) (by omega)
    omega
  · omega
  · have htw : toWord c = c.toNat := toWord_eq_toNat (by omega) (by omega)
    omega

/-- When the guard triggers, `alloc_mem` returns the unchanged registers and
the bad-address error. -/
lemma alloc_mem_eq_of_guard (rz : Int) (r : Registers) (size : Int)
    (hg : guardTriggers rz r size) :
    alloc_mem rz r size =
      (r, Except.error (Error.bad_address
        "when allocating memory, under/overflow detected")) := by
  unfold alloc_mem
  rw [if_pos hg]

/-! ### Claims -/

/-- C1: for every register set (with a `Word`-valued stack pointer) and
`isize`-valued signed size whose corrected size does not trigger the
overflow/underflow guard, `alloc_mem` succeeds, the returned address equals
the starting `stack_pointer` minus the corrected size computed in exact
(wraparound-free) integer arithmetic, and the returned value is exactly the
new value stored in the working `stack_pointer` field. -/
theorem C1_alloc_mem_success_value (rz : Int) (r : Registers) (size : Int)
    (hsp : r.stack_pointer ≤ USIZE_MAX) (hsize : inI64 size)
    (hg : ¬ guardTriggers rz r size) :
    ∃ r' : Registers,
      alloc_mem rz r size = (r', Except.ok r'.stack_pointer) ∧
      (r'.stack_pointer : Int) =
        (r.stack_pointer : Int) - correctedSize rz r size := by
  have hc := corrected_inI64 rz r size hsize
  have hcond : ¬((0 < correctedSize rz r size ∧
        (r.stack_pointer : Int) ≤ correctedSize rz r size) ∨
      (correctedSize rz r size < 0 ∧
        (USIZE_MAX : Int) - (-(correctedSize rz r size)) ≤ r.stack_pointer)) :=
    fun h => hg ((guard_iff rz r size hsp hsize).mpr h)
  refine ⟨_, alloc_mem_eq_of_not_guard rz r size hsp hsize hg, ?_⟩
  show (((r.stack_pointer : Int) - correctedSize rz r size).toNat : Int) = _
  unfold inI64 at hc
  unfold USIZE_MAX at hsp hcond
  push_neg at hcond
  obtain ⟨h1, h2⟩ := hcond
  rcases lt_trichotomy (correctedSize rz r size) 0 with h | h | h
  · have := h2 h
    omega
  · omega
  · have := h1 h
    omega

/-- C1 witness: the successful allocation of the source's
`test_mem_alloc_normal` fixture (stack pointer 100000, size 7575,
x86-64 Linux red zone). -/
theorem C1_alloc_mem_success_value_witness :
    (⟨1, 100000, 100000⟩ : Registers).stack_pointer ≤ USIZE_MAX ∧
    inI64 7575 ∧
    ¬ guardTriggers RED_ZONE_SIZE_x86_64_linux ⟨1, 100000, 100000⟩ 7575 ∧
    ∃ r' : Registers,
      alloc_mem RED_ZONE_SIZE_x86_64_linux ⟨1, 100000, 100000⟩ 7575 =
        (r', Except.ok r'.stack_pointer) ∧
      (r'.stack_pointer : Int) =
        ((⟨1, 100000, 100000⟩ : Registers).stack_pointer : Int) -
          correctedSize RED_ZONE_SIZE_x86_64_linux ⟨1, 100000, 100000⟩ 7575 :=
  ⟨by decide, by decide, by decide,
   C1_alloc_mem_success_value RED_ZONE_SIZE_x86_64_linux ⟨1, 100000, 100000⟩
     7575 (by decide) (by decide) (by decide)⟩

/-- C2: at a call to `alloc_mem`, the red-zone constant (128 on 64-bit x86
Linux, 0 on other architectures/platforms) is added to the requested size to
form the corrected size exactly when the working `stack_pointer` equals the
`original_stack_pointer` at call time (stated for sizes where the addition
does not overflow `isize`; the overflowing case is settled under C7). -/
theorem C2_red_zone_applied_iff_sp_eq_original (rz : Int) (r : Registers)
    (size : Int)
    (_hrz : rz = RED_ZONE_SIZE_x86_64_linux ∨ rz = RED_ZONE_SIZE_other)
    (hrange : inI64 (size + rz)) :
    (r.stack_pointer = r.original_stack_pointer →
      correctedSize rz r size = size + rz) ∧
    (r.stack_pointer ≠ r.original_stack_pointer →
      correctedSize rz r size = size) := by
  constructor
  · intro h
    simp only [correctedSize, h, beq_self_eq_true]
    unfold wrapI64
    unfold inI64 at hrange
    omega
  · intro h
    simp only [correctedSize, beq_eq_false_iff_ne.mpr h]

/-- C2 witness: with the x86-64 Linux red zone, on a register set whose
stack pointer equals the original one, the corrected size for request 7575
is `7575 + 128`. -/
theorem C2_red_zone_applied_iff_sp_eq_original_witness :
    (RED_ZONE_SIZE_x86_64_linux = RED_ZONE_SIZE_x86_64_linux ∨
      RED_ZONE_SIZE_x86_64_linux = RED_ZONE_SIZE_other) ∧
    inI64 (7575 + RED_ZONE_SIZE_x86_64_linux) ∧
    (((⟨1, 100000, 100000⟩ : Registers).stack_pointer =
        (⟨1, 100000, 100000⟩ : Registers).original_stack_pointer →
      correctedSize RED_ZONE_SIZE_x86_64_linux ⟨1, 100000, 100000⟩ 7575 =
        7575 + RED_ZONE_SIZE_x86_64_linux) ∧
     ((⟨1, 100000, 100000⟩ : Registers).stack_pointer ≠
        (⟨1, 100000, 100000⟩ : Registers).original_stack_pointer →
      correctedSize RED_ZONE_SIZE_x86_64_linux ⟨1, 100000, 100000⟩ 7575 =
        7575)) :=
  ⟨Or.inl rfl, by decide,
   C2_red_zone_applied_iff_sp_eq_original RED_ZONE_SIZE_x86_64_linux
     ⟨1, 100000, 100000⟩ 7575 (Or.inl rfl) (by decide)⟩

/-- C3: `alloc_mem` fails with the bad-address error exactly when the
corrected size `c` satisfies `c > 0 ∧ stack_pointer ≤ c` or
`c < 0 ∧ stack_pointer ≥ USIZE_MAX - |c|` (in exact integer arithmetic);
in every other case it succeeds. -/
theorem C3_error_iff_guard_conditions (rz : Int) (r : Registers) (size : Int)
    (hsp : r.stack_pointer ≤ USIZE_MAX) (hsize : inI64 size) :
    ((alloc_mem rz r size).2 = Except.error (Error.bad_address
        "when allocating memory, under/overflow detected") ↔
      (0 < correctedSize rz r size ∧
        (r.stack_pointer : Int) ≤ correctedSize rz r size) ∨
      (correctedSize rz r size < 0 ∧
        (USIZE_MAX : Int) - (-(correctedSize rz r size)) ≤ r.stack_pointer)) ∧
    (¬((0 < correctedSize rz r size ∧
        (r.stack_pointer : Int) ≤ correctedSize rz r size) ∨
       (correctedSize rz r size < 0 ∧
        (USIZE_MAX : Int) - (-(correctedSize rz r size)) ≤ r.stack_pointer)) →
      ∃ a, (alloc_mem rz r size).2 = Except.ok a) := by
  constructor
  · rw [← guard_iff rz r size hsp hsize]
    constructor
    · intro he
      by_contra hg
      rw [alloc_mem_eq_of_not_guard rz r size hsp hsize hg] at he
      exact Except.noConfusion he
    · intro hg
      rw [alloc_mem_eq_of_guard rz r size hg]
  · intro h
    have hg : ¬ guardTriggers rz r size := by
      rw [guard_iff rz r size hsp hsize]
      exact h
    rw [alloc_mem_eq_of_not_guard rz r size hsp hsize hg]
    exact ⟨_, rfl⟩

/-- C3 witness: the failing allocation of the source's
`test_mem_alloc_overflow` fixture (stack pointer 120, size 7575). -/
theorem C3_error_iff_guard_conditions_witness :
    (⟨1, 120, 120⟩ : Registers).stack_pointer ≤ USIZE_MAX ∧ inI64 7575 ∧
    (((alloc_mem RED_ZONE_SIZE_x86_64_linux ⟨1, 120, 120⟩ 7575).2 =
        Except.error (Error.bad_address
          "when allocating memory, under/overflow detected") ↔
      (0 < correctedSize RED_ZONE_SIZE_x86_64_linux ⟨1, 120, 120⟩ 7575 ∧
        ((⟨1, 120, 120⟩ : Registers).stack_pointer : Int) ≤
          correctedSize RED_ZONE_SIZE_x86_64_linux ⟨1, 120, 120⟩ 7575) ∨
      (correctedSize RED_ZONE_SIZE_x86_64_linux ⟨1, 120, 120⟩ 7575 < 0 ∧
        (USIZE_MAX : Int) -
          (-(correctedSize RED_ZONE_SIZE_x86_64_linux ⟨1, 120, 120⟩ 7575)) ≤
          (⟨1, 120, 120⟩ : Registers).stack_pointer)) ∧
    (¬((0 < correctedSize RED_ZONE_SIZE_x86_64_linux ⟨1, 120, 120⟩ 7575 ∧
        ((⟨1, 120, 120⟩ : Registers).stack_pointer : Int) ≤
          correctedSize RED_ZONE_SIZE_x86_64_linux ⟨1, 120, 120⟩ 7575) ∨
       (correctedSize RED_ZONE_SIZE_x86_64_linux ⟨1, 120, 120⟩ 7575 < 0 ∧
        (USIZE_MAX : Int) -
          (-(correctedSize RED_ZONE_SIZE_x86_64_linux ⟨1, 120, 120⟩ 7575)) ≤
          (⟨1, 120, 120⟩ : Registers).stack_pointer)) →
      ∃ a, (alloc_mem RED_ZONE_SIZE_x86_64_linux ⟨1, 120, 120⟩ 7575).2 =
        Except.ok a)) :=
  ⟨by decide, by decide,
   C3_error_iff_guard_conditions RED_ZONE_SIZE_x86_64_linux ⟨1, 120, 120⟩
     7575 (by decide) (by decide)⟩

/-- C4: whenever `alloc_mem` returns an error, the register set is left
completely unmodified (the returned post-state equals the pre-state in every
field) and the error is the bad-address error with its human-readable
diagnostic. -/
theorem C4_error_leaves_registers_unchanged (rz : Int) (r : Registers)
    (size : Int) (e : Error)
    (he : (alloc_mem rz r size).2 = Except.error e) :
    (alloc_mem rz r size).1 = r ∧
    e = Error.bad_address "when allocating memory, under/overflow detected" := by
  by_cases hg : guardTriggers rz r size
  · rw [alloc_mem_eq_of_guard rz r size hg] at he ⊢
    refine ⟨rfl, ?_⟩
    have := Except.error.inj he
    exact this.symm
  · exfalso
    unfold alloc_mem at he
    rw [if_neg hg] at he
    exact Except.noConfusion he

/-- C4 witness: the failing allocation of the source's
`test_mem_alloc_underflow` fixture (stack pointer `usize::MAX - 120`,
size −7575) leaves the register set unchanged. -/
theorem C4_error_leaves_registers_unchanged_witness :
    (alloc_mem RED_ZONE_SIZE_x86_64_linux
        ⟨1, USIZE_MAX - 120, USIZE_MAX - 120⟩ (-7575)).2 =
      Except.error (Error.bad_address
        "when allocating memory, under/overflow detected") ∧
    ((alloc_mem RED_ZONE_SIZE_x86_64_linux
        ⟨1, USIZE_MAX - 120, USIZE_MAX - 120⟩ (-7575)).1 =
      ⟨1, USIZE_MAX - 120, USIZE_MAX - 120⟩ ∧
     Error.bad_address "when allocating memory, under/overflow detected" =
       Error.bad_address "when allocating memory, under/overflow detected") :=
  ⟨rfl,
   C4_error_leaves_registers_unchanged RED_ZONE_SIZE_x86_64_linux
     ⟨1, USIZE_MAX - 120, USIZE_MAX - 120⟩ (-7575)
     (Error.bad_address "when allocating memory, under/overflow detected")
     rfl⟩

/-- C5 counterexample: on a register set whose stack pointer (100) still
equals the original stack pointer, under the x86-64 Linux red zone, a
request of size 0 does not succeed at all — the corrected size is 128 and
the guard rejects the call — refuting the claim that size 0 always succeeds
with the stack pointer unchanged regardless of whether the stack pointer
still equals the original one. -/
theorem C5_counterexample_size_zero_can_fail :
    (alloc_mem RED_ZONE_SIZE_x86_64_linux ⟨1, 100, 100⟩ 0).2 =
      Except.error (Error.bad_address
        "when allocating memory, under/overflow detected") ∧
    correctedSize RED_ZONE_SIZE_x86_64_linux ⟨1, 100, 100⟩ 0 = 128 := by
  decide

/-- C5 amended: a request of size 0 succeeds with the stack pointer
unchanged whenever its corrected size is 0, i.e. whenever the working stack
pointer no longer equals the original stack pointer or the platform red-zone
constant is 0; when the red zone still applies, a size-0 request behaves
like a request of `RED_ZONE_SIZE` bytes instead. -/
theorem C5_amended_size_zero_noop (rz : Int) (r : Registers)
    (hsp : r.stack_pointer ≤ USIZE_MAX)
    (h : r.stack_pointer ≠ r.original_stack_pointer ∨ rz = 0) :
    alloc_mem rz r 0 = (r, Except.ok r.stack_pointer) := by
  have hc : correctedSize rz r 0 = 0 := by
    rcases h with h | h
    · simp only [correctedSize, beq_eq_false_iff_ne.mpr h]
    · subst h
      unfold correctedSize
      split
      · rfl
      · unfold wrapI64
        norm_num
  have hg : ¬ guardTriggers rz r 0 := by
    intro hgg
    simp only [guardTriggers, hc] at hgg
    rcases hgg with ⟨h1, _⟩ | ⟨h1, _⟩ <;> exact absurd h1 (by norm_num)
  have heq := alloc_mem_eq_of_not_guard rz r 0 hsp (by decide) hg
  rw [heq, hc]
  have hv : ((r.stack_pointer : Int) - 0).toNat = r.stack_pointer := by omega
  rw [hv]

/-- C5 amended witness: size 0 on a register set whose stack pointer (555)
differs from the original stack pointer (777) is a no-op. -/
theorem C5_amended_size_zero_noop_witness :
    (⟨1, 555, 777⟩ : Registers).stack_pointer ≤ USIZE_MAX ∧
    ((⟨1, 555, 777⟩ : Registers).stack_pointer ≠
      (⟨1, 555, 777⟩ : Registers).original_stack_pointer ∨
      RED_ZONE_SIZE_x86_64_linux = 0) ∧
    alloc_mem RED_ZONE_SIZE_x86_64_linux ⟨1, 555, 777⟩ 0 =
      (⟨1, 555, 777⟩, Except.ok (⟨1, 555, 777⟩ : Registers).stack_pointer) :=
  ⟨by decide, Or.inl (by decide),
   C5_amended_size_zero_noop RED_ZONE_SIZE_x86_64_linux ⟨1, 555, 777⟩
     (by decide) (Or.inl (by decide))⟩

/-- C6 counterexample: two sequential successful allocations within one trap
in which the red-zone addition is applied to both.  Starting from stack
pointer 1000 equal to the original, a first request of −128 has corrected
size `−128 + 128 = 0` (red zone applied), succeeds, and leaves the stack
pointer at 1000 — still equal to the original — so a second request of 10
again has the red zone applied (corrected size `10 + 128`), refuting "the
red-zone addition is applied in at most one call" and "applied only to the
first". -/
theorem C6_counterexample_red_zone_applied_twice :
    (alloc_mem RED_ZONE_SIZE_x86_64_linux ⟨1, 1000, 1000⟩ (-128)).2 =
      Except.ok 1000 ∧
    correctedSize RED_ZONE_SIZE_x86_64_linux ⟨1, 1000, 1000⟩ (-128) =
      (-128) + RED_ZONE_SIZE_x86_64_linux ∧
    (⟨1, 1000, 1000⟩ : Registers).stack_pointer =
      (⟨1, 1000, 1000⟩ : Registers).original_stack_pointer ∧
    (alloc_mem RED_ZONE_SIZE_x86_64_linux
        (alloc_mem RED_ZONE_SIZE_x86_64_linux ⟨1, 1000, 1000⟩ (-128)).1 10).2 =
      Except.ok 862 ∧
    (alloc_mem RED_ZONE_SIZE_x86_64_linux ⟨1, 1000, 1000⟩ (-128)).1.stack_pointer =
      (alloc_mem RED_ZONE_SIZE_x86_64_linux
        ⟨1, 1000, 1000⟩ (-128)).1.original_stack_pointer ∧
    correctedSize RED_ZONE_SIZE_x86_64_linux
        (alloc_mem RED_ZONE_SIZE_x86_64_linux ⟨1, 1000, 1000⟩ (-128)).1 10 =
      10 + RED_ZONE_SIZE_x86_64_linux := by
  decide

/-- C6 amended: within one trap, for two sequential calls on one register
set where the first call sees `stack_pointer = original_stack_pointer`
(red zone applied), succeeds, and has nonzero corrected size, the second
call does not apply the red-zone addition: its corrected size is exactly its
requested size. -/
theorem C6_amended_red_zone_not_applied_twice (rz : Int) (r : Registers)
    (size₁ size₂ : Int) (hsp : r.stack_pointer ≤ USIZE_MAX)
    (hsize₁ : inI64 size₁)
    (happ : r.stack_pointer = r.original_stack_pointer)
    (hne : correctedSize rz r size₁ ≠ 0)
    (hg : ¬ guardTriggers rz r size₁) :
    correctedSize rz (alloc_mem rz r size₁).1 size₂ = size₂ := by
  rw [alloc_mem_eq_of_not_guard rz r size₁ hsp hsize₁ hg]
  have hc := corrected_inI64 rz r size₁ hsize₁
  have hcond : ¬((0 < correctedSize rz r size₁ ∧
        (r.stack_pointer : Int) ≤ correctedSize rz r size₁) ∨
      (correctedSize rz r size₁ < 0 ∧
        (USIZE_MAX : Int) - (-(correctedSize rz r size₁)) ≤ r.stack_pointer)) :=
    fun h => hg ((guard_iff rz r size₁ hsp hsize₁).mpr h)
  have hnew : ((r.stack_pointer : Int) - correctedSize rz r size₁).toNat ≠
      r.original_stack_pointer := by
    rw [← happ]
    unfold inI64 at hc
    unfold USIZE_MAX at hsp hcond
    push_neg at hcond
    obtain ⟨hA, hB⟩ := hcond
    rcases lt_trichotomy (correctedSize rz r size₁) 0 with h | h | h
    · have := hB h
      omega
    · exact absurd h hne
    · have := hA h
      omega
  generalize hX : ((r.stack_pointer : Int) - correctedSize rz r size₁).toNat
    = X at hnew ⊢
  simp only [correctedSize, beq_eq_false_iff_ne.mpr hnew]

/-- C6 amended witness: after a first successful allocation of 7575 bytes
from stack pointer 100000 (red zone applied, corrected size 7703 ≠ 0), a
second request of 10 bytes has corrected size exactly 10. -/
theorem C6_amended_red_zone_not_applied_twice_witness :
    (⟨1, 100000, 100000⟩ : Registers).stack_pointer ≤ USIZE_MAX ∧
    inI64 7575 ∧
    (⟨1, 100000, 100000⟩ : Registers).stack_pointer =
      (⟨1, 100000, 100000⟩ : Registers).original_stack_pointer ∧
    correctedSize RED_ZONE_SIZE_x86_64_linux ⟨1, 100000, 100000⟩ 7575 ≠ 0 ∧
    ¬ guardTriggers RED_ZONE_SIZE_x86_64_linux ⟨1, 100000, 100000⟩ 7575 ∧
    correctedSize RED_ZONE_SIZE_x86_64_linux
      (alloc_mem RED_ZONE_SIZE_x86_64_linux ⟨1, 100000, 100000⟩ 7575).1 10 =
      10 :=
  ⟨by decide, by decide, by decide, by decide, by decide,
   C6_amended_red_zone_not_applied_twice RED_ZONE_SIZE_x86_64_linux
     ⟨1, 100000, 100000⟩ 7575 10 (by decide) (by decide) (by decide)
     (by decide) (by decide)⟩

/-- C7 counterexample: at requested size `2 ^ 63 - 1` (the largest `isize`
value, hence accepted per the claim) on a register set whose stack pointer
equals the original one, under the x86-64 Linux red zone, the intermediate
addition `size + RED_ZONE_SIZE` leaves the signed pointer-width range: the
corrected size wraps to `-(2 ^ 63) + 127`, refuting "no wrapping overflow in
the intermediate arithmetic". -/
theorem C7_counterexample_red_zone_addition_wraps :
    ¬ noIntermediateOverflow RED_ZONE_SIZE_x86_64_linux ⟨1, 1000, 1000⟩
      (2 ^ 63 - 1) ∧
    inI64 (2 ^ 63 - 1) ∧
    correctedSize RED_ZONE_SIZE_x86_64_linux ⟨1, 1000, 1000⟩ (2 ^ 63 - 1) =
      -(2 ^ 63) + 127 := by
  decide

/-- C7 amended: `alloc_mem` is total — it returns either a success address
or the bad-address error — and its intermediate signed arithmetic stays
within the pointer-width signed range provided the red-zone addition
`size + RED_ZONE_SIZE` does not exceed the `isize` range when it is
performed and the corrected size is not `isize::MIN` (whose negation also
wraps). -/
theorem C7_amended_total_without_wrap (rz : Int) (r : Registers) (size : Int)
    (hsize : inI64 size)
    (hadd : r.stack_pointer = r.original_stack_pointer → inI64 (size + rz))
    (hmin : correctedSize rz r size ≠ -(2 ^ 63)) :
    noIntermediateOverflow rz r size ∧
    ((∃ a, (alloc_mem rz r size).2 = Except.ok a) ∨
      (alloc_mem rz r size).2 = Except.error (Error.bad_address
        "when allocating memory, under/overflow detected")) := by
  constructor
  · refine ⟨hadd, ?_⟩
    intro hneg
    have hc := corrected_inI64 rz r size hsize
    unfold inI64 at hc ⊢
    omega
  · by_cases hg : guardTriggers rz r size
    · right
      rw [alloc_mem_eq_of_guard rz r size hg]
    · left
      unfold alloc_mem
      rw [if_neg hg]
      exact ⟨_, rfl⟩

/-- C7 amended witness: at stack pointer 100000 with request 7575 under the
x86-64 Linux red zone, no intermediate operation wraps and the call returns
a success address. -/
theorem C7_amended_total_without_wrap_witness :
    inI64 7575 ∧
    ((⟨1, 100000, 100000⟩ : Registers).stack_pointer =
        (⟨1, 100000, 100000⟩ : Registers).original_stack_pointer →
      inI64 (7575 + RED_ZONE_SIZE_x86_64_linux)) ∧
    correctedSize RED_ZONE_SIZE_x86_64_linux ⟨1, 100000, 100000⟩ 7575 ≠
      -(2 ^ 63) ∧
    (noIntermediateOverflow RED_ZONE_SIZE_x86_64_linux ⟨1, 100000, 100000⟩
        7575 ∧
      ((∃ a, (alloc_mem RED_ZONE_SIZE_x86_64_linux ⟨1, 100000, 100000⟩
          7575).2 = Except.ok a) ∨
        (alloc_mem RED_ZONE_SIZE_x86_64_linux ⟨1, 100000, 100000⟩ 7575).2 =
          Except.error (Error.bad_address
            "when allocating memory, under/overflow detected"))) :=
  ⟨by decide, fun _ => by decide, by decide,
   C7_amended_total_without_wrap RED_ZONE_SIZE_x86_64_linux
     ⟨1, 100000, 100000⟩ 7575 (by decide) (fun _ => by decide) (by decide)⟩

/-- C8: on a fresh register set with starting stack pointer 100000 and
request 7575, under the x86-64 Linux profile, `alloc_mem` succeeds and the
new stack pointer equals `100000 - 7575 - 128 = 92297`, which is strictly
less than the starting pointer. -/
theorem C8_concrete_normal_allocation :
    alloc_mem RED_ZONE_SIZE_x86_64_linux ⟨1, 100000, 100000⟩ 7575 =
      (⟨1, 92297, 100000⟩, Except.ok 92297) ∧
    (92297 : Nat) = 100000 - 7575 - 128 ∧ (92297 : Nat) < 100000 := by
  decide

/-- C9: every call to `alloc_mem` (successful or failing) mutates at most
the working `stack_pointer` field: the process identifier and the original
stack pointer of the post-state always equal those of the pre-state. -/
theorem C9_mutates_only_stack_pointer (rz : Int) (r : Registers)
    (size : Int) :
    (alloc_mem rz r size).1.pid = r.pid ∧
    (alloc_mem rz r size).1.original_stack_pointer =
      r.original_stack_pointer := by
  unfold alloc_mem
  split
  · exact ⟨rfl, rfl⟩
  · exact ⟨rfl, rfl⟩

/-- C10: whenever `alloc_mem` succeeds with a positive corrected size, the
returned address is strictly greater than zero — the guard rejects
`stack_pointer ≤ corrected_size`, so address 0 is never handed out as the
base of a positively-sized reservation. -/
theorem C10_positive_alloc_returns_positive_address (rz : Int)
    (r : Registers) (size : Int) (hsp : r.stack_pointer ≤ USIZE_MAX)
    (hsize : inI64 size) (hpos : 0 < correctedSize rz r size) (a : Nat)
    (hok : (alloc_mem rz r size).2 = Except.ok a) : 0 < a := by
  by_cases hg : guardTriggers rz r size
  · rw [alloc_mem_eq_of_guard rz r size hg] at hok
    exact Except.noConfusion hok
  · rw [alloc_mem_eq_of_not_guard rz r size hsp hsize hg] at hok
    have ha := Except.ok.inj hok
    have hcond : ¬((0 < correctedSize rz r size ∧
          (r.stack_pointer : Int) ≤ correctedSize rz r size) ∨
        (correctedSize rz r size < 0 ∧
          (USIZE_MAX : Int) - (-(correctedSize rz r size)) ≤
            r.stack_pointer)) :=
      fun h => hg ((guard_iff rz r size hsp hsize).mpr h)
    push_neg at hcond
    obtain ⟨hA, _⟩ := hcond
    have hlt := hA hpos
    omega

/-- C10 witness: the successful allocation at stack pointer 100000 with
request 7575 (corrected size 7703 > 0) returns address 92297 > 0. -/
theorem C10_positive_alloc_returns_positive_address_witness :
    (⟨1, 100000, 100000⟩ : Registers).stack_pointer ≤ USIZE_MAX ∧
    inI64 7575 ∧
    0 < correctedSize RED_ZONE_SIZE_x86_64_linux ⟨1, 100000, 100000⟩ 7575 ∧
    (alloc_mem RED_ZONE_SIZE_x86_64_linux ⟨1, 100000, 100000⟩ 7575).2 =
      Except.ok 92297 ∧
    0 < 92297 :=
  ⟨by decide, by decide, by decide, by decide,
   C10_positive_alloc_returns_positive_address RED_ZONE_SIZE_x86_64_linux
     ⟨1, 100000, 100000⟩ 7575 (by decide) (by decide) (by decide) 92297
     (by decide)⟩

end ProotRust
